import Mathlib

/-!
# Verification of the celeste sync engine's per-item reconciliation logic

Shallow embedding of `src/celeste/src/launch.rs`, centred on the per-item
bodies of `sync_local_directory` (lines 1551-1939) and
`sync_remote_directory` (lines 1946-2341), the glob-based ignore filter,
and the per-SyncDir error gate in the `launch` loop (lines 1227-1238).

Filesystem and rclone transport operations are modelled through a
`WorldOracle` that fixes whether each destructive/transfer operation
succeeds and what the post-transfer stat observations are; the stat calls
that the code immediately `unwrap()`s after a successful transfer are
modelled as succeeding.  Database timestamps are stored as `i32` in the
schema; the code compares them after `as u64` / `as i64` casts, which we
model exactly (`u64cast` is Rust's sign-extending `as u64`).
-/

namespace Celeste

/-- A remote entry as surfaced by rclone `stat`/`list`:
its `is_dir` flag and `mod_time.unix_timestamp()` (an `i64`). -/
structure RemoteItem where
  isDir : Bool
  modTime : Int
deriving DecidableEq, Repr

/-- A local directory entry as surfaced by `fs::read_dir`: its file type
and its modification time in seconds since the epoch (a `u64`). -/
structure LocalEntry where
  isDir : Bool
  mtime : Nat
deriving DecidableEq, Repr

/-- A `SyncItems` row: the stored baseline timestamps
(`last_local_timestamp`, `last_remote_timestamp`, both `i32` columns). -/
structure SyncItemRec where
  lastLocalTimestamp : Int
  lastRemoteTimestamp : Int
deriving DecidableEq, Repr

/-- Rust's `v as u64` applied to an `i32`/`i64` value: sign-extend and
reinterpret, i.e. reduce modulo 2^64 into `[0, 2^64)`.
`18446744073709551616 = 2^64`. -/
def u64cast (v : Int) : Nat := (v % (18446744073709551616 : Int)).toNat

/-- Observable side effects of processing one candidate item.
`storeInsert`/`storeUpdate` carry the timestamps written to the
`SyncItems` table (before the final `try_into::<i32>()`). -/
inductive Effect
  | errGeneral
  | errBothMoreCurrent
  | transferPush
  | transferPull
  | storeInsert (localTs : Nat) (remoteTs : Int)
  | storeUpdate (localTs : Nat) (remoteTs : Int)
  | storeDelete
  | localRemoveDirAll
  | localRemoveFile
  | localCreateDir
  | remotePurge
  | remoteDelete
  | remoteMkdir
  | recurseSubdir
  | fatalPanic
deriving DecidableEq, Repr

/-- Environment oracle: success of each fallible operation, the remote
stat observed after a push materializes the item remotely, and the local
mtime observed after a pull materializes the item locally. -/
structure WorldOracle where
  copyToRemoteOk : Bool
  copyToLocalOk : Bool
  purgeOk : Bool
  deleteOk : Bool
  mkdirOk : Bool
  removeDirAllOk : Bool
  removeFileOk : Bool
  createDirOk : Bool
  pushRemoteStat : RemoteItem
  pullLocalMtime : Nat
deriving DecidableEq, Repr

/-- An oracle in which every operation succeeds; after a push the remote
stat reports a file with mod time 42, after a pull the local mtime is 7. -/
def allOk : WorldOracle :=
  ⟨true, true, true, true, true, true, true, true, ⟨false, 42⟩, 7⟩

/-! ## Timestamp guards (launch.rs lines 1835, 1849, 1856, 1870, 2245, 2261, 2269, 2279) -/

/-- `remote_timestamp > db.last_remote_timestamp as i64` under the
`let Some(..)` guard: false when the remote item is absent. -/
def RemoteNewer (r : Option RemoteItem) (bl : Int) : Prop :=
  match r with
  | some x => x.modTime > bl
  | none => False

instance (r : Option RemoteItem) (bl : Int) : Decidable (RemoteNewer r bl) :=
  match r with
  | some x => (inferInstance : Decidable (x.modTime > bl))
  | none => isFalse fun h => h

/-- `remote_timestamp == db.last_remote_timestamp as i64` under the
`let Some(..)` guard. -/
def RemoteSame (r : Option RemoteItem) (bl : Int) : Prop :=
  match r with
  | some x => x.modTime = bl
  | none => False

instance (r : Option RemoteItem) (bl : Int) : Decidable (RemoteSame r bl) :=
  match r with
  | some x => (inferInstance : Decidable (x.modTime = bl))
  | none => isFalse fun h => h

/-- `l_timestamp > db.last_local_timestamp as u64` under the
`let Some(..)` guard (remote-rooted walk, where the local side may be
absent). -/
def LocalNewer (l : Option Nat) (bl : Int) : Prop :=
  match l with
  | some x => x > u64cast bl
  | none => False

instance (l : Option Nat) (bl : Int) : Decidable (LocalNewer l bl) :=
  match l with
  | some x => (inferInstance : Decidable (x > u64cast bl))
  | none => isFalse fun h => h

/-- `l_timestamp == db.last_local_timestamp as u64` under the
`let Some(..)` guard. -/
def LocalSame (l : Option Nat) (bl : Int) : Prop :=
  match l with
  | some x => x = u64cast bl
  | none => False

instance (l : Option Nat) (bl : Int) : Decidable (LocalSame l bl) :=
  match l with
  | some x => (inferInstance : Decidable (x = u64cast bl))
  | none => isFalse fun h => h

/-! ## First-ever-sync decision (no stored baseline) -/

/-- Which way the first-ever sync of a path transfers. -/
inductive FirstSyncChoice
  | push
  | pull
deriving DecidableEq, Repr

/-- Lines 1882-1894: local-rooted walk, no baseline.  If the remote item
exists, push when `local_utc_timestamp > remote_timestamp as u64`, else
pull; if the remote item is absent, push. -/
def local_first_sync_choice (localTs : Nat) (remoteTs : Option Int) : FirstSyncChoice :=
  match remoteTs with
  | some rt => if localTs > u64cast rt then .push else .pull
  | none => .push

/-- Lines 2292-2305: remote-rooted walk, no baseline.  If the local item
exists, push when `l_timestamp > remote_timestamp as u64`, else pull; if
the local item is absent, pull. -/
def remote_first_sync_choice (localTs : Option Nat) (remoteTs : Int) : FirstSyncChoice :=
  match localTs with
  | some lt => if lt > u64cast remoteTs then .push else .pull
  | none => .pull

/-! ## Transfer closures of the local-rooted walk -/

/-- Common tail of the local-rooted walk's push closure: directories are
created remotely and recursed into, files are copied to the remote; on
success the fresh remote stat is returned (`none` models `Err(())`). -/
def push_local_body (w : WorldOracle) (entry : LocalEntry) (pre : List Effect) :
    List Effect × Option RemoteItem :=
  if entry.isDir then
    if w.mkdirOk then (pre ++ [.remoteMkdir, .recurseSubdir], some w.pushRemoteStat)
    else (pre ++ [.remoteMkdir, .errGeneral], none)
  else if w.copyToRemoteOk then (pre ++ [.transferPush], some w.pushRemoteStat)
  else (pre ++ [.transferPush, .errGeneral], none)

/-- The `push_local_to_remote` closure of `sync_local_directory`
(lines 1714-1762).  If a remote counterpart exists and
`same_type := file_type.is_dir() && rclone_item.is_dir` is false, the
remote node is purged first. -/
def push_local_to_remote (w : WorldOracle) (entry : LocalEntry)
    (remoteItem : Option RemoteItem) : List Effect × Option RemoteItem :=
  match remoteItem with
  | some r =>
    if !(entry.isDir && r.isDir) then
      if w.purgeOk then push_local_body w entry [.remotePurge]
      else ([.remotePurge, .errGeneral], none)
    else push_local_body w entry []
  | none => push_local_body w entry []

/-- Common tail of the local-rooted walk's pull closure: directories are
recursed into, files are copied from the remote (`false` models the
closure's `Err(())`). -/
def pull_local_body (w : WorldOracle) (entry : LocalEntry) (pre : List Effect) :
    List Effect × Bool :=
  if entry.isDir then (pre ++ [.recurseSubdir], true)
  else if w.copyToLocalOk then (pre ++ [.transferPull], true)
  else (pre ++ [.transferPull, .errGeneral], false)

/-- The `pull_remote_to_local` closure of `sync_local_directory`
(lines 1764-1800).  The remote item is `unwrap()`ed at every call site,
so it is taken here already unwrapped.  When
`same_type := file_type.is_dir() && remote_item.is_dir` is false the
local node is removed first; note the source's
`if file_type.is_dir() && let Err(..) = remove_dir_all(..) {..}
 else if let Err(..) = remove_file(..) {..}` shape, under which the
`remove_file` attempt also runs after a successful `remove_dir_all`. -/
def pull_remote_to_local (w : WorldOracle) (entry : LocalEntry)
    (r : RemoteItem) : List Effect × Bool :=
  if !(entry.isDir && r.isDir) then
    if entry.isDir && !w.removeDirAllOk then ([.localRemoveDirAll, .errGeneral], false)
    else if !w.removeFileOk then
      ((if entry.isDir then [.localRemoveDirAll] else []) ++ [.localRemoveFile, .errGeneral],
        false)
    else
      pull_local_body w entry
        ((if entry.isDir then [.localRemoveDirAll] else []) ++ [.localRemoveFile])
  else pull_local_body w entry []

/-! ## Per-item body of the local-rooted walk -/

/-- Per-item reconciliation of `sync_local_directory`
(lines 1818-1937), for an item present in the local listing, with the
remote stat result and the `SyncItems` lookup already in hand.

With a baseline the branch chain is, in order: both-more-current
(conflict, suppressed when both sides are directories), local newer
(push, then update the record with the post-push local mtime and the
fresh remote stat), remote newer (pull, then update with the post-pull
local mtime and the listed remote timestamp), remote absent with local
unchanged (remove the local copy and delete the record), both unchanged
(no-op), otherwise `unreachable!()`.

Without a baseline the `local_first_sync_choice` transfer runs and, on
success, a fresh record is inserted from `local_utc_timestamp` (observed
before the transfer) and the post-transfer remote stat. -/
def sync_local_item (w : WorldOracle) (entry : LocalEntry)
    (remoteItem : Option RemoteItem) (dbItem : Option SyncItemRec) : List Effect :=
  match dbItem with
  | some db_model =>
    if entry.mtime > u64cast db_model.lastLocalTimestamp ∧
        RemoteNewer remoteItem db_model.lastRemoteTimestamp then
      match remoteItem with
      | some r => if !entry.isDir || !r.isDir then [.errBothMoreCurrent] else []
      | none => []
    else if entry.mtime > u64cast db_model.lastLocalTimestamp then
      match push_local_to_remote w entry remoteItem with
      | (effs, some fresh) => effs ++ [.storeUpdate entry.mtime fresh.modTime]
      | (effs, none) => effs
    else if RemoteNewer remoteItem db_model.lastRemoteTimestamp then
      match remoteItem with
      | some r =>
        match pull_remote_to_local w entry r with
        | (effs, true) => effs ++ [.storeUpdate w.pullLocalMtime r.modTime]
        | (effs, false) => effs
      | none => []
    else if remoteItem = none ∧ entry.mtime = u64cast db_model.lastLocalTimestamp then
      if entry.isDir then
        if w.removeDirAllOk then [.localRemoveDirAll, .storeDelete]
        else [.localRemoveDirAll, .errGeneral]
      else
        if w.removeFileOk then [.localRemoveFile, .storeDelete]
        else [.localRemoveFile, .errGeneral]
    else if entry.mtime = u64cast db_model.lastLocalTimestamp ∧
        RemoteSame remoteItem db_model.lastRemoteTimestamp then
      []
    else [.fatalPanic]
  | none =>
    match local_first_sync_choice entry.mtime (remoteItem.map (·.modTime)) with
    | .push =>
      match push_local_to_remote w entry remoteItem with
      | (effs, some _) => effs ++ [.storeInsert entry.mtime w.pushRemoteStat.modTime]
      | (effs, none) => effs
    | .pull =>
      match remoteItem with
      | some r =>
        match pull_remote_to_local w entry r with
        | (effs, true) => effs ++ [.storeInsert entry.mtime r.modTime]
        | (effs, false) => effs
      | none => []

/-! ## Transfer closures of the remote-rooted walk -/

/-- The `push_local_to_remote` closure of `sync_remote_directory`
(lines 2081-2146).  If the local side is a directory and the remote item
is not, the remote item is `delete`d and a directory `mkdir`ed; if the
local side is a file and the remote item is a directory, the remote item
is purged; directories recurse, files are copied.  On success the fresh
remote stat is returned. -/
def remote_push_local_to_remote (w : WorldOracle) (localIsDir : Bool)
    (item : RemoteItem) : List Effect × Option RemoteItem :=
  if localIsDir then
    if !item.isDir then
      if !w.deleteOk then ([.remoteDelete, .errGeneral], none)
      else if !w.mkdirOk then ([.remoteDelete, .remoteMkdir, .errGeneral], none)
      else ([.remoteDelete, .remoteMkdir, .recurseSubdir], some w.pushRemoteStat)
    else ([.recurseSubdir], some w.pushRemoteStat)
  else if item.isDir then
    if !w.purgeOk then ([.remotePurge, .errGeneral], none)
    else if w.copyToRemoteOk then ([.remotePurge, .transferPush], some w.pushRemoteStat)
    else ([.remotePurge, .transferPush, .errGeneral], none)
  else if w.copyToRemoteOk then ([.transferPush], some w.pushRemoteStat)
  else ([.transferPush, .errGeneral], none)

/-- Common tail of the remote-rooted walk's pull closure.
`localExists` is the live `local_path.exists()` check of line 2180,
evaluated after any type-mismatch repair. -/
def remote_pull_body (w : WorldOracle) (localExists : Bool) (item : RemoteItem)
    (pre : List Effect) : List Effect × Bool :=
  if item.isDir then
    if !localExists then
      if w.createDirOk then (pre ++ [.localCreateDir, .recurseSubdir], true)
      else (pre ++ [.localCreateDir, .errGeneral], false)
    else (pre ++ [.recurseSubdir], true)
  else if w.copyToLocalOk then (pre ++ [.transferPull], true)
  else (pre ++ [.transferPull, .errGeneral], false)

/-- The `pull_remote_to_local` closure of `sync_remote_directory`
(lines 2149-2210).  If the local side exists with a mismatching type it
is removed (and, for a remote directory, a local directory is created in
its place, so the path still exists at line 2180's check); remote
directories are then created locally when missing and recursed into,
files are copied to the local machine. -/
def remote_pull_remote_to_local (w : WorldOracle) (localEntry : Option LocalEntry)
    (item : RemoteItem) : List Effect × Bool :=
  match localEntry with
  | some l =>
    if l.isDir && !item.isDir then
      if w.removeDirAllOk then remote_pull_body w true item [.localRemoveDirAll]
      else ([.localRemoveDirAll, .errGeneral], false)
    else if !l.isDir && item.isDir then
      if !w.removeFileOk then ([.localRemoveFile, .errGeneral], false)
      else if !w.createDirOk then ([.localRemoveFile, .localCreateDir, .errGeneral], false)
      else remote_pull_body w true item [.localRemoveFile, .localCreateDir]
    else remote_pull_body w true item []
  | none => remote_pull_body w false item []

/-! ## Per-item body of the remote-rooted walk -/

/-- Per-item reconciliation of `sync_remote_directory`
(lines 2055-2339), for an item present in the remote listing, with the
local stat (`none` when the local path does not exist) and the
`SyncItems` lookup in hand.

The baseline branch chain mirrors the local-rooted walk, with two
asymmetries taken verbatim from the source: the local-absent branch
purges the remote copy and calls `delete_db_entry()` only when the purge
*fails*; and a successful baseline pull falls through to the trailing
insert (lines 2308-2339), which records the post-transfer local mtime
and a fresh remote stat.  Without a baseline, the
`remote_first_sync_choice` transfer runs and on success the same
trailing insert records post-transfer observations of both sides. -/
def localTsOf (l : Option LocalEntry) : Option Nat := l.map (·.mtime)

def localIsDirOf (l : Option LocalEntry) : Bool := (l.map (·.isDir)).getD false

def sync_remote_item (w : WorldOracle) (localEntry : Option LocalEntry)
    (item : RemoteItem) (dbItem : Option SyncItemRec) : List Effect :=
  match dbItem with
  | some db_model =>
    if LocalNewer (localTsOf localEntry) db_model.lastLocalTimestamp ∧
        item.modTime > db_model.lastRemoteTimestamp then
      if !localIsDirOf localEntry || !item.isDir then [.errBothMoreCurrent] else []
    else if LocalNewer (localTsOf localEntry) db_model.lastLocalTimestamp then
      match remote_push_local_to_remote w (localIsDirOf localEntry) item with
      | (effs, some fresh) =>
          effs ++ [.storeUpdate ((localTsOf localEntry).getD 0) fresh.modTime]
      | (effs, none) => effs
    else if item.modTime > db_model.lastRemoteTimestamp then
      match remote_pull_remote_to_local w localEntry item with
      | (effs, true) =>
          effs ++ [.storeUpdate w.pullLocalMtime item.modTime,
            .storeInsert w.pullLocalMtime item.modTime]
      | (effs, false) => effs
    else if localEntry = none ∧ item.modTime = db_model.lastRemoteTimestamp then
      if w.purgeOk then [.remotePurge]
      else [.remotePurge, .errGeneral, .storeDelete]
    else if LocalSame (localTsOf localEntry) db_model.lastLocalTimestamp ∧
        item.modTime = db_model.lastRemoteTimestamp then
      []
    else [.fatalPanic]
  | none =>
    match remote_first_sync_choice (localTsOf localEntry) item.modTime with
    | .push =>
      match remote_push_local_to_remote w (localIsDirOf localEntry) item with
      | (effs, some fresh) =>
          effs ++ [.storeInsert ((localTsOf localEntry).getD 0) fresh.modTime]
      | (effs, none) => effs
    | .pull =>
      match remote_pull_remote_to_local w localEntry item with
      | (effs, true) => effs ++ [.storeInsert w.pullLocalMtime item.modTime]
      | (effs, false) => effs

/-! ## One candidate pair through a full pass -/

/-- The remote-rooted walk's handling of a candidate pair within a pass:
it runs `sync_remote_item` unless the remote side is absent from the
listing, the entry matches the walk's ignore check (lines 2030-2037), or
the pair was already registered in `synced_items` by the local-rooted
walk (lines 2046-2053). -/
def pass_remote_part (w : WorldOracle) (localEntry : Option LocalEntry)
    (remoteItem : Option RemoteItem) (dbItem : Option SyncItemRec)
    (ignoredRemote visited : Bool) : List Effect :=
  match remoteItem with
  | some item =>
    if ignoredRemote || visited then []
    else sync_remote_item w localEntry item dbItem
  | none => []

/-- Processing of one candidate pair by `sync_local_directory` followed
by `sync_remote_directory` within one pass, specialised to the
configurations in which the keys the two walks compute coincide: a
SyncDir with an *empty* remote path (then the remote-rooted walk's
`local_path_string` of lines 2040-2044 equals the local-rooted walk's
`local_path`, the `synced_items` check of lines 2046-2053 recognises a
registered pair, and both walks read the same `SyncItems` row, here the
shared `dbItem`), or a pair whose remote side is absent (then the
remote-rooted walk never lists the item at all).  A locally listed,
non-ignored entry is registered in `synced_items` (line 1678) before
its timestamps are examined.  An `unreachable!()` panic aborts the pass
before the remote-rooted walk runs.  The general composition, keyed by
the exact strings each walk computes, is `pass_item_keyed` below;
`pass_item_keyed_agrees` proves the two agree on this envelope. -/
def pass_item (w : WorldOracle) (localEntry : Option LocalEntry)
    (remoteItem : Option RemoteItem) (dbItem : Option SyncItemRec)
    (ignoredLocal ignoredRemote : Bool) : List Effect :=
  match localEntry with
  | some entry =>
    if ignoredLocal then
      pass_remote_part w localEntry remoteItem dbItem ignoredRemote false
    else if (sync_local_item w entry remoteItem dbItem).contains .fatalPanic then
      sync_local_item w entry remoteItem dbItem
    else
      sync_local_item w entry remoteItem dbItem ++
        pass_remote_part w localEntry remoteItem dbItem ignoredRemote true
  | none => pass_remote_part w localEntry remoteItem dbItem ignoredRemote false

/-! ## Ignore filter (glob matching inputs) -/

/-- `str::contains('/')`, computed over the string's character list so
that concrete instances evaluate inside the kernel. -/
def strContains (s : String) (c : Char) : Bool := s.data.contains c

/-- Rust `str::strip_prefix`. -/
def stripPrefixStr (s p : String) : Option String :=
  if p.data.isPrefixOf s.data then some ⟨s.data.drop p.data.length⟩ else none

/-- Lines 1650-1654: the remote path of a local entry, from the entry's
path relative to the SyncDir's local root (already stripped of any
trailing slash). -/
def remote_path_of (syncDirRemotePath strippedPath : String) : String :=
  if syncDirRemotePath.data.isEmpty then strippedPath
  else syncDirRemotePath ++ "/" ++ strippedPath

/-- Lines 1656-1665: "The above path, with `sync_dir.remote_path`
stripped from it" — the prefix is stripped only when both the entry's
remote path and `sync_dir.remote_path` contain a `/`. -/
def stripped_remote_path_of (syncDirRemotePath remotePath : String) : String :=
  if strContains remotePath '/' && strContains syncDirRemotePath '/' then
    (stripPrefixStr remotePath (syncDirRemotePath ++ "/")).getD remotePath
  else remotePath

/-- Lines 1669-1676: the local-rooted walk skips an entry iff some
loaded glob pattern matches `stripped_remote_path`.  The glob `matches`
call itself belongs to the external `glob` crate and is abstracted as
`m : pattern → candidate → Bool`. -/
def local_walk_ignored (m : String → String → Bool) (globs : List String)
    (syncDirRemotePath strippedPath : String) : Bool :=
  globs.any fun p =>
    m p (stripped_remote_path_of syncDirRemotePath
          (remote_path_of syncDirRemotePath strippedPath))

/-- Lines 2030-2037: the remote-rooted walk skips an entry iff some
loaded glob pattern matches `item.path`, the full path from the root of
the remote. -/
def remote_walk_ignored (m : String → String → Bool) (globs : List String)
    (remotePath : String) : Bool :=
  globs.any fun p => m p remotePath

/-- Matching for glob patterns that contain no metacharacters: such a
pattern matches exactly its own text (a valid instance of the `glob`
crate's semantics, used for concrete inputs). -/
def literalMatch (p s : String) : Bool := p == s

/-! ## The pass composition keyed by the walks' path strings

The two walks address `synced_items` and the `SyncItems` table by
`(local path, remote path)` string pairs they compute independently.
The local-rooted walk uses the entry's real path
`{local_root}/{rel}` (from `fs::read_dir`, line 1638) and the remote
path `remote_path_of` (lines 1650-1654).  The remote-rooted walk
derives its local key at lines 2040-2044 as
`format!("{}/{}", sync_dir.local_path,
  item.path.strip_prefix(&sync_dir.remote_path).unwrap())` — the
prefix is stripped *without* a trailing slash, so for any nonempty
`sync_dir.remote_path` the stripped tail keeps a leading `/` and the
key becomes `{local_root}//{rel}`. -/

/-- The key pair component under which the local-rooted walk registers
and looks up an entry whose path relative to the SyncDir's local root
is `rel` (lines 1638, 1678, 1702-1708). -/
def local_walk_local_key (localRoot rel : String) : String := localRoot ++ "/" ++ rel

/-- Lines 2040-2044: the local key the remote-rooted walk derives from
a listed item's full remote path.  `strip_prefix` is `unwrap()`ed; a
listed path always starts with the SyncDir's remote path, so the
`getD` default is never taken on the walk's inputs. -/
def remote_walk_local_key (localRoot syncDirRemotePath itemPath : String) : String :=
  localRoot ++ "/" ++ ((stripPrefixStr itemPath syncDirRemotePath).getD itemPath)

/-- Replay a walk's store writes, which land under that walk's own key
pair, onto a store snapshot: `storeUpdate` and `storeInsert` leave the
written timestamps as the row, `storeDelete` removes the row; all other
keys are untouched. -/
def apply_store_effects (effs : List Effect) (keyL keyR : String)
    (store : String → String → Option SyncItemRec) :
    String → String → Option SyncItemRec :=
  fun lk rk =>
    if lk = keyL ∧ rk = keyR then
      effs.foldl
        (fun acc e =>
          match e with
          | .storeInsert l r => some ⟨(l : Int), r⟩
          | .storeUpdate l r => some ⟨(l : Int), r⟩
          | .storeDelete => none
          | _ => acc)
        (store lk rk)
    else store lk rk

/-- The remote-rooted walk's handling of a candidate pair, reading the
`SyncItems` row under the key pair it computes at lines 2040-2044 and
2068-2074.  `visited` is the `synced_items` containment result of lines
2046-2053. -/
def pass_remote_part_keyed (w : WorldOracle) (localRoot syncDirRemotePath rel : String)
    (localEntry : Option LocalEntry) (remoteItem : Option RemoteItem)
    (store : String → String → Option SyncItemRec)
    (ignoredRemote visited : Bool) : List Effect :=
  match remoteItem with
  | some item =>
    if ignoredRemote || visited then []
    else
      sync_remote_item w localEntry item
        (store
          (remote_walk_local_key localRoot syncDirRemotePath
            (remote_path_of syncDirRemotePath rel))
          (remote_path_of syncDirRemotePath rel))
  | none => []

/-- One candidate pair through a full pass, with the store keyed by the
exact `(local path, remote path)` strings each walk computes.  The
entry's full remote path is the same string in the local-rooted walk's
computation (lines 1641-1655) and in the remote listing (the NOTE at
lines 1943-1944), namely `remote_path_of syncDirRemotePath rel`, so the
`synced_items` pair check of lines 2046-2053 reduces to equality of the
two local keys.  The same filesystem entry `localEntry` backs both
walks' local stats: the remote-rooted walk's key can differ from the
entry's real path only by a duplicated `/` separator, which the
operating system collapses to the same file.  The store snapshot seen
by the remote-rooted walk replays the local-rooted walk's writes, which
land under the local-rooted walk's own key pair.  An `unreachable!()`
panic aborts the pass before the remote-rooted walk runs. -/
def pass_item_keyed (w : WorldOracle) (localRoot syncDirRemotePath rel : String)
    (localEntry : Option LocalEntry) (remoteItem : Option RemoteItem)
    (store : String → String → Option SyncItemRec)
    (ignoredLocal ignoredRemote : Bool) : List Effect :=
  match localEntry with
  | some entry =>
    if ignoredLocal then
      pass_remote_part_keyed w localRoot syncDirRemotePath rel localEntry remoteItem
        store ignoredRemote false
    else if (sync_local_item w entry remoteItem
        (store (local_walk_local_key localRoot rel)
          (remote_path_of syncDirRemotePath rel))).contains .fatalPanic then
      sync_local_item w entry remoteItem
        (store (local_walk_local_key localRoot rel)
          (remote_path_of syncDirRemotePath rel))
    else
      sync_local_item w entry remoteItem
          (store (local_walk_local_key localRoot rel)
            (remote_path_of syncDirRemotePath rel)) ++
        pass_remote_part_keyed w localRoot syncDirRemotePath rel localEntry remoteItem
          (apply_store_effects
            (sync_local_item w entry remoteItem
              (store (local_walk_local_key localRoot rel)
                (remote_path_of syncDirRemotePath rel)))
            (local_walk_local_key localRoot rel)
            (remote_path_of syncDirRemotePath rel)
            store)
          ignoredRemote
          (remote_walk_local_key localRoot syncDirRemotePath
              (remote_path_of syncDirRemotePath rel)
            == local_walk_local_key localRoot rel)
  | none =>
    pass_remote_part_keyed w localRoot syncDirRemotePath rel localEntry remoteItem
      store ignoredRemote false

/-! ## Per-SyncDir error gate of the launch loop -/

/-- All inputs that determine how one candidate pair is processed in a
pass. -/
structure PassInput where
  localEntry : Option LocalEntry
  remoteItem : Option RemoteItem
  dbItem : Option SyncItemRec
  ignoredLocal : Bool
  ignoredRemote : Bool
deriving DecidableEq, Repr

/-- Lines 1227-1238 of `launch` combined with the per-item walks: a
SyncDir whose `error_status_text` brief is nonempty is skipped wholesale
(`if item.error_status_text.text().len() != 0 { continue; }`); otherwise
every candidate pair of the SyncDir is processed in order, errors on one
item notwithstanding. -/
def sync_dir_pass (w : WorldOracle) (errorStatusText : String)
    (items : List PassInput) : List Effect :=
  if errorStatusText.length ≠ 0 then []
  else items.flatMap fun i =>
    pass_item w i.localEntry i.remoteItem i.dbItem i.ignoredLocal i.ignoredRemote

/-- An oracle in which every operation succeeds and a pull leaves the
local copy with mtime 10. -/
def pullWorld : WorldOracle := { allOk with pullLocalMtime := 10 }

/-- An oracle in which the remote purge fails and everything else
succeeds. -/
def purgeFailWorld : WorldOracle := { allOk with purgeOk := false }

/-! ## Theorems -/

/-- C4: in the remote-rooted walk, a previously-synced item absent
locally with the remote timestamp equal to the stored baseline is
purged remotely; but contrary to the claim, after a *successful* purge
the baseline record is left in the store — `delete_db_entry()` is
called only on the purge's *error* branch (lines 2270-2273). -/
theorem remote_purge_baseline_behavior :
    sync_remote_item allOk none ⟨false, 200⟩ (some ⟨100, 200⟩) = [.remotePurge]
    ∧ sync_remote_item purgeFailWorld none ⟨false, 200⟩ (some ⟨100, 200⟩)
        = [.remotePurge, .errGeneral, .storeDelete] := by decide

/-- C7: for a SyncDir whose remote path is the single component "docs",
the entry with path "secret.txt" relative to the SyncDir's remote root
matches the loaded pattern "secret.txt", yet neither walk skips it: the
local-rooted walk leaves the `sync_dir.remote_path` prefix in place
(the stripping guard requires the prefix itself to contain a '/') and
the remote-rooted walk matches against the full remote path, so both
walks test the pattern against "docs/secret.txt" and fail to match.
The unskipped entry then flows into normal reconciliation, which for a
never-synced local file inserts a baseline record into the store. -/
theorem ignore_filter_full_path_eval :
    literalMatch "secret.txt" "secret.txt" = true
    ∧ remote_path_of "docs" "secret.txt" = "docs/secret.txt"
    ∧ stripped_remote_path_of "docs" "docs/secret.txt" = "docs/secret.txt"
    ∧ local_walk_ignored literalMatch ["secret.txt"] "docs" "secret.txt" = false
    ∧ remote_walk_ignored literalMatch ["secret.txt"] "docs/secret.txt" = false
    ∧ sync_local_item allOk ⟨false, 5⟩ none none
        = [.transferPush, .storeInsert 5 42] := by decide

/-- C8: in the local-rooted walk the opposing node is destructively
deleted before a transfer whenever the two sides are not both
directories — in particular also when both sides are files (the same
type): the push closure purges the remote file and the pull closure
removes the local file, because `same_type` is computed as
`file_type.is_dir() && rclone_item.is_dir`.  Both directories suppress
the deletion, and the remote-rooted walk's push of a file over a file
performs none. -/
theorem same_type_deletion_eval :
    (push_local_to_remote allOk ⟨false, 20⟩ (some ⟨false, 10⟩)).1
        = [.remotePurge, .transferPush]
    ∧ (pull_remote_to_local allOk ⟨false, 20⟩ ⟨false, 10⟩).1
        = [.localRemoveFile, .transferPull]
    ∧ (push_local_to_remote allOk ⟨true, 20⟩ (some ⟨true, 10⟩)).1
        = [.remoteMkdir, .recurseSubdir]
    ∧ (remote_push_local_to_remote allOk false ⟨false, 10⟩).1 = [.transferPush] := by decide

/-- C5 counterexample: on a first-ever sync (no baseline) of a local
file with mtime 5 against a remote file with mod time 10, the
local-rooted walk pulls, the pull leaves the local copy with mtime 10,
yet the inserted baseline's local field is 5 — the local timestamp
observed *before* the transfer, not the fresh one. -/
theorem first_sync_pull_stale_insert_counterexample :
    sync_local_item pullWorld ⟨false, 5⟩ (some ⟨false, 10⟩) none
      = [.localRemoveFile, .transferPull, .storeInsert 5 10]
    ∧ pullWorld.pullLocalMtime = 10 ∧ (5 : Nat) ≠ 10 := by decide

/-- C6 counterexample: with a baseline (local 10, remote 15), a local
timestamp 5 strictly *older* than its stored baseline value and a
remote timestamp 20 strictly newer is not covered by the spec's table,
yet the branch chain resolves it as an ordinary pull (guarded only by
"remote newer"), with no panic and no error. -/
theorem stale_local_newer_remote_counterexample :
    sync_local_item allOk ⟨false, 5⟩ (some ⟨false, 20⟩) (some ⟨10, 15⟩)
      = [.localRemoveFile, .transferPull, .storeUpdate 7 20]
    ∧ (5 : Nat) < u64cast 10
    ∧ Effect.fatalPanic ∉
        sync_local_item allOk ⟨false, 5⟩ (some ⟨false, 20⟩) (some ⟨10, 15⟩) := by decide

/-- C9 counterexample: a SyncDir whose pending error brief is nonempty
is skipped wholesale on the next pass — a healthy item of that SyncDir
(which with a clear brief would be pushed) is not reconciled at all,
contradicting item-granularity skipping. -/
theorem pending_error_skips_sibling_counterexample :
    sync_dir_pass allOk "1 error found. "
      [⟨some ⟨false, 20⟩, some ⟨false, 10⟩, some ⟨10, 10⟩, false, false⟩] = []
    ∧ sync_dir_pass allOk ""
      [⟨some ⟨false, 20⟩, some ⟨false, 10⟩, some ⟨10, 10⟩, false, false⟩]
        = [.remotePurge, .transferPush, .storeUpdate 20 42] := by decide

/-- Helper: the local-rooted walk's conflict branch, in isolation. -/
theorem sync_local_item_conflict_branch (w : WorldOracle) (entry : LocalEntry)
    (r : RemoteItem) (db : SyncItemRec)
    (hl : entry.mtime > u64cast db.lastLocalTimestamp)
    (hr : r.modTime > db.lastRemoteTimestamp) :
    sync_local_item w entry (some r) (some db) =
      if !entry.isDir || !r.isDir then [.errBothMoreCurrent] else [] := by
  have hg : entry.mtime > u64cast db.lastLocalTimestamp ∧
      RemoteNewer (some r) db.lastRemoteTimestamp := ⟨hl, hr⟩
  simp only [sync_local_item]
  rw [if_pos hg]

/-- Stripping the empty prefix returns the whole string. -/
theorem stripPrefixStr_empty (s : String) : stripPrefixStr s "" = some s := by
  unfold stripPrefixStr
  norm_num [List.isPrefixOf]

/-- With an empty SyncDir remote path the remote-rooted walk's local
key (lines 2040-2044) is the entry's real path. -/
theorem remote_walk_local_key_empty (localRoot p : String) :
    remote_walk_local_key localRoot "" p = localRoot ++ "/" ++ p := by
  simp [remote_walk_local_key, stripPrefixStr_empty]

/-- The remote path of an entry under an empty SyncDir remote path is
its relative path. -/
theorem remote_path_of_empty (rel : String) : remote_path_of "" rel = rel := rfl

/-- The specialised composition `pass_item` agrees with the keyed
composition `pass_item_keyed` on its documented envelope: for a SyncDir
with an empty remote path (both walks then compute the same key pair),
and, for any remote path, whenever the remote side is absent from the
listing. -/
theorem pass_item_keyed_agrees (w : WorldOracle) (localRoot rel : String)
    (localEntry : Option LocalEntry) (remoteItem : Option RemoteItem)
    (store : String → String → Option SyncItemRec) (iL iR : Bool) :
    pass_item_keyed w localRoot "" rel localEntry remoteItem store iL iR
      = pass_item w localEntry remoteItem
          (store (local_walk_local_key localRoot rel) (remote_path_of "" rel)) iL iR
    ∧ ∀ sdrp : String,
      pass_item_keyed w localRoot sdrp rel localEntry none store iL iR
        = pass_item w localEntry none
            (store (local_walk_local_key localRoot rel) (remote_path_of sdrp rel)) iL iR := by
  constructor
  · rcases localEntry with _ | entry <;> rcases iL <;>
      simp [pass_item_keyed, pass_item, pass_remote_part_keyed, pass_remote_part,
        remote_walk_local_key_empty, remote_path_of_empty, local_walk_local_key]
  · intro sdrp
    rcases localEntry with _ | entry <;> rcases iL <;>
      simp [pass_item_keyed, pass_item, pass_remote_part_keyed, pass_remote_part]

/-- Helper: the local-rooted walk's no-op branch, in isolation. -/
theorem sync_local_item_noop (w : WorldOracle) (entry : LocalEntry) (r : RemoteItem)
    (db : SyncItemRec)
    (hl : entry.mtime = u64cast db.lastLocalTimestamp)
    (hr : r.modTime = db.lastRemoteTimestamp) :
    sync_local_item w entry (some r) (some db) = [] := by
  have h1 : ¬ entry.mtime > u64cast db.lastLocalTimestamp := by
    rw [hl]; exact lt_irrefl _
  have h2 : ¬ RemoteNewer (some r) db.lastRemoteTimestamp := by
    show ¬ r.modTime > db.lastRemoteTimestamp
    rw [hr]; exact lt_irrefl _
  have h4 : ¬ ((some r : Option RemoteItem) = none ∧
      entry.mtime = u64cast db.lastLocalTimestamp) := fun h => Option.noConfusion h.1
  simp only [sync_local_item]
  rw [if_neg (fun h => h1 h.1), if_neg h1, if_neg h2, if_neg h4,
    if_pos ⟨hl, show r.modTime = db.lastRemoteTimestamp from hr⟩]

/-- Helper: the remote-rooted walk's no-op branch, in isolation. -/
theorem sync_remote_item_noop (w : WorldOracle) (entry : LocalEntry) (r : RemoteItem)
    (db : SyncItemRec)
    (hl : entry.mtime = u64cast db.lastLocalTimestamp)
    (hr : r.modTime = db.lastRemoteTimestamp) :
    sync_remote_item w (some entry) r (some db) = [] := by
  have h1 : ¬ LocalNewer (localTsOf (some entry)) db.lastLocalTimestamp := by
    show ¬ entry.mtime > u64cast db.lastLocalTimestamp
    rw [hl]; exact lt_irrefl _
  have h2 : ¬ r.modTime > db.lastRemoteTimestamp := by
    rw [hr]; exact lt_irrefl _
  have h4 : ¬ ((some entry : Option LocalEntry) = none ∧
      r.modTime = db.lastRemoteTimestamp) := fun h => Option.noConfusion h.1
  simp only [sync_remote_item]
  rw [if_neg (fun h => h1 h.1), if_neg h1, if_neg h2, if_neg h4,
    if_pos ⟨show entry.mtime = u64cast db.lastLocalTimestamp from hl, hr⟩]

/-- C1: the code fails the claim for any SyncDir with a nonempty remote
path.  With local root "/a", remote path "docs", entry "x" (local file
mtime 20, remote file mod time 30) and the baseline (10, 15) stored
under the local-rooted walk's key pair ("/a/x", "docs/x"): the
local-rooted walk raises the one `BothMoreCurrent` error, but the
remote-rooted walk's key (lines 2040-2044) is the alias "/a//x", so the
`synced_items` check misses, its `SyncItems` lookup finds no row, and
the first-sync branch pulls the remote copy over the locally modified
file and inserts an alias row — a transfer the claim forbids.  With an
empty remote path the keys coincide and the pass emits exactly the one
error. -/
theorem both_more_current_remote_walk_pull_eval :
    pass_item_keyed allOk "/a" "docs" "x" (some ⟨false, 20⟩) (some ⟨false, 30⟩)
      (fun lk rk => if lk = "/a/x" ∧ rk = "docs/x" then some ⟨10, 15⟩ else none)
      false false
      = [.errBothMoreCurrent, .transferPull, .storeInsert 7 30]
    ∧ remote_walk_local_key "/a" "docs" "docs/x" = "/a//x"
    ∧ pass_item_keyed allOk "/a" "" "x" (some ⟨false, 20⟩) (some ⟨false, 30⟩)
      (fun lk rk => if lk = "/a/x" ∧ rk = "x" then some ⟨10, 15⟩ else none)
      false false
      = [.errBothMoreCurrent] := by decide

/-- C2: the code fails the claim for any SyncDir with a nonempty remote
path.  Pass 1 over local root "/a", remote path "docs": the remote-only
file "docs/x" (mod time 10) is pulled (the pull leaves local mtime 7)
and its baseline (7, 10) is inserted under the remote-rooted walk's
alias key pair ("/a//x", "docs/x").  Pass 2 with no external changes
(local mtime 7 and remote mod time 10, both equal to the stored
baseline): the local-rooted walk looks up ("/a/x", "docs/x"), finds no
row, takes the first-sync branch and pulls + inserts again — a transfer
and a store mutation the claim forbids.  With an empty remote path the
keys coincide and the second pass emits nothing. -/
theorem second_pass_repull_eval :
    pass_item_keyed allOk "/a" "docs" "x" none (some ⟨false, 10⟩)
      (fun _ _ => none) false false
      = [.transferPull, .storeInsert 7 10]
    ∧ pass_item_keyed allOk "/a" "docs" "x" (some ⟨false, 7⟩) (some ⟨false, 10⟩)
      (fun lk rk => if lk = "/a//x" ∧ rk = "docs/x" then some ⟨7, 10⟩ else none)
      false false
      = [.localRemoveFile, .transferPull, .storeInsert 7 10]
    ∧ pass_item_keyed allOk "/a" "" "x" (some ⟨false, 7⟩) (some ⟨false, 10⟩)
      (fun lk rk => if lk = "/a/x" ∧ rk = "x" then some ⟨7, 10⟩ else none)
      false false
      = [] := by decide

/-- C3: in the local-rooted walk, a previously-synced item whose local
mtime equals the stored baseline while the remote copy is observed
absent has its local copy removed (recursively for a directory) and its
baseline record deleted from the store, with no error raised, provided
the filesystem removal succeeds; the remote-rooted walk never lists the
absent item, so these are the pass's only effects for it. -/
theorem local_deletion_propagation (w : WorldOracle) (entry : LocalEntry)
    (db : SyncItemRec)
    (hl : entry.mtime = u64cast db.lastLocalTimestamp)
    (hok : (if entry.isDir then w.removeDirAllOk else w.removeFileOk) = true) :
    pass_item w (some entry) none (some db) false false =
      (if entry.isDir then [.localRemoveDirAll] else [.localRemoveFile])
        ++ [.storeDelete] := by
  have h1 : ¬ entry.mtime > u64cast db.lastLocalTimestamp := by
    rw [hl]; exact lt_irrefl _
  have h3 : ¬ RemoteNewer (none : Option RemoteItem) db.lastRemoteTimestamp := fun h => h
  have hbody : sync_local_item w entry none (some db) =
      (if entry.isDir then [.localRemoveDirAll] else [.localRemoveFile])
        ++ [.storeDelete] := by
    simp only [sync_local_item]
    rw [if_neg (fun h => h3 h.2), if_neg h1, if_neg h3, if_pos ⟨trivial, hl⟩]
    by_cases hd : entry.isDir <;> simp_all
  simp [pass_item, pass_remote_part, hbody]

/-- C3 witness: a local file with mtime 20, baseline (20, 99), remote
absent: the file is removed and the record deleted, with no error. -/
theorem local_deletion_propagation_witness :
    pass_item allOk (some ⟨false, 20⟩) none (some ⟨20, 99⟩) false false
      = [.localRemoveFile, .storeDelete] := by
  have h := local_deletion_propagation allOk ⟨false, 20⟩ ⟨20, 99⟩ (by decide) (by decide)
  exact h.trans (by decide)

/-- C10: on a first-ever sync (no baseline) with both sides present,
exactly equal timestamps make both walks pull (the remote side wins),
and a push is triggered only when the local timestamp strictly exceeds
the remote one.  The timestamps are assumed to lie in their machine
ranges (`u64` for the local mtime, `i64` for the remote mod time). -/
theorem first_sync_tie_and_push (lts : Nat) (rts : Int)
    (hlt : lts < 18446744073709551616)
    (hrt : rts < 9223372036854775808) :
    ((lts : Int) = rts →
      local_first_sync_choice lts (some rts) = .pull
      ∧ remote_first_sync_choice (some lts) rts = .pull)
    ∧ (local_first_sync_choice lts (some rts) = .push → rts < (lts : Int))
    ∧ (remote_first_sync_choice (some lts) rts = .push → rts < (lts : Int)) := by
  unfold local_first_sync_choice remote_first_sync_choice u64cast
  refine ⟨fun heq => ?_, fun hp => ?_, fun hp => ?_⟩
  · have h : ¬ lts > (rts % 18446744073709551616).toNat := by omega
    simp [h]
  · by_cases hgt : lts > (rts % 18446744073709551616).toNat
    · omega
    · simp [hgt] at hp
  · by_cases hgt : lts > (rts % 18446744073709551616).toNat
    · omega
    · simp [hgt] at hp

/-- C10 witness: equal timestamps 5/5 pull, and a push at 20 over 10
implies the local side was strictly newer. -/
theorem first_sync_tie_and_push_witness :
    local_first_sync_choice 5 (some 5) = .pull ∧ (10 : Int) < ((20 : Nat) : Int) := by
  refine ⟨((first_sync_tie_and_push 5 5 (by decide) (by decide)).1 (by decide)).1, ?_⟩
  exact (first_sync_tie_and_push 20 10 (by decide) (by decide)).2.1 (by decide)

/-- C5 (amended): on a first-ever sync the winning side is transferred
and a baseline is then inserted whose remote field is the post-transfer
remote stat; its local field is the local timestamp observed *before*
the transfer in the local-rooted walk (which for a push — the local
side unchanged — coincides with the fresh local mtime, as in the
local-only push scenario), while the remote-rooted walk records the
post-transfer local mtime.  Stated for file entries with the involved
operations succeeding. -/
theorem first_sync_insert_amended (w : WorldOracle) (entry : LocalEntry) (r : RemoteItem)
    (hfile : entry.isDir = false) (hrfile : r.isDir = false)
    (hpush : w.copyToRemoteOk = true) (hpull : w.copyToLocalOk = true)
    (hrm : w.removeFileOk = true) (hpurge : w.purgeOk = true) :
    sync_local_item w entry none none
      = [.transferPush, .storeInsert entry.mtime w.pushRemoteStat.modTime]
    ∧ (¬ entry.mtime > u64cast r.modTime →
        sync_local_item w entry (some r) none
          = [.localRemoveFile, .transferPull, .storeInsert entry.mtime r.modTime])
    ∧ (entry.mtime > u64cast r.modTime →
        sync_local_item w entry (some r) none
          = [.remotePurge, .transferPush,
              .storeInsert entry.mtime w.pushRemoteStat.modTime])
    ∧ sync_remote_item w none r none
      = [.transferPull, .storeInsert w.pullLocalMtime r.modTime] := by
  refine ⟨?_, fun hno => ?_, fun hyes => ?_, ?_⟩
  · simp [sync_local_item, local_first_sync_choice, push_local_to_remote,
      push_local_body, hfile, hpush]
  · simp [sync_local_item, local_first_sync_choice, if_neg hno, pull_remote_to_local,
      pull_local_body, hfile, hrfile, hrm, hpull]
  · simp [sync_local_item, local_first_sync_choice, if_pos hyes, push_local_to_remote,
      push_local_body, hfile, hrfile, hpurge, hpush]
  · simp [sync_remote_item, remote_first_sync_choice, localTsOf,
      remote_pull_remote_to_local, remote_pull_body, hrfile, hpull]

/-- C5 amended witness: pulling remote mod time 60 over local mtime 50
inserts the pre-transfer local timestamp 50 with the remote's 60. -/
theorem first_sync_insert_amended_witness :
    sync_local_item allOk ⟨false, 50⟩ (some ⟨false, 60⟩) none
      = [.localRemoveFile, .transferPull, .storeInsert 50 60] :=
  (first_sync_insert_amended allOk ⟨false, 50⟩ ⟨false, 60⟩ rfl rfl rfl rfl rfl rfl).2.1
    (by decide)

/-- Helper: the local-rooted push closure never emits the panic marker. -/
theorem fatalPanic_not_mem_push_body (w : WorldOracle) (e : LocalEntry) (pre : List Effect)
    (h : Effect.fatalPanic ∉ pre) : Effect.fatalPanic ∉ (push_local_body w e pre).1 := by
  unfold push_local_body
  split_ifs <;> simp_all

theorem fatalPanic_not_mem_push (w : WorldOracle) (e : LocalEntry)
    (r : Option RemoteItem) : Effect.fatalPanic ∉ (push_local_to_remote w e r).1 := by
  rcases r with _ | item
  · simp only [push_local_to_remote]
    exact fatalPanic_not_mem_push_body w e [] (by simp)
  · simp only [push_local_to_remote]
    split_ifs <;>
      first
      | exact fatalPanic_not_mem_push_body w e _ (by simp)
      | simp

/-- Helper: the local-rooted pull closure never emits the panic marker. -/
theorem fatalPanic_not_mem_pull_body (w : WorldOracle) (e : LocalEntry) (pre : List Effect)
    (h : Effect.fatalPanic ∉ pre) : Effect.fatalPanic ∉ (pull_local_body w e pre).1 := by
  unfold pull_local_body
  split_ifs <;> simp_all

theorem fatalPanic_not_mem_pull (w : WorldOracle) (e : LocalEntry) (r : RemoteItem) :
    Effect.fatalPanic ∉ (pull_remote_to_local w e r).1 := by
  unfold pull_remote_to_local
  split_ifs <;>
    first
    | exact fatalPanic_not_mem_pull_body w e _ (by simp)
    | simp

/-- Helper: the remote-rooted push closure never emits the panic marker. -/
theorem fatalPanic_not_mem_remote_push (w : WorldOracle) (localIsDir : Bool)
    (item : RemoteItem) : Effect.fatalPanic ∉ (remote_push_local_to_remote w localIsDir item).1 := by
  unfold remote_push_local_to_remote
  split_ifs <;> simp

/-- Helper: the remote-rooted pull closure never emits the panic marker. -/
theorem fatalPanic_not_mem_remote_pull_body (w : WorldOracle) (localExists : Bool)
    (item : RemoteItem) (pre : List Effect) (h : Effect.fatalPanic ∉ pre) :
    Effect.fatalPanic ∉ (remote_pull_body w localExists item pre).1 := by
  unfold remote_pull_body
  split_ifs <;> simp_all

theorem fatalPanic_not_mem_remote_pull (w : WorldOracle) (localEntry : Option LocalEntry)
    (item : RemoteItem) : Effect.fatalPanic ∉ (remote_pull_remote_to_local w localEntry item).1 := by
  rcases localEntry with _ | l
  · simp only [remote_pull_remote_to_local]
    exact fatalPanic_not_mem_remote_pull_body w false item [] (by simp)
  · simp only [remote_pull_remote_to_local]
    split_ifs <;>
      first
      | exact fatalPanic_not_mem_remote_pull_body w true item _ (by simp)
      | simp

/-- Helper: the exact fall-through condition makes the local-rooted
walk panic. -/
theorem sync_local_item_panic_of (w : WorldOracle) (entry : LocalEntry)
    (remoteItem : Option RemoteItem) (db : SyncItemRec)
    (h2 : ¬ entry.mtime > u64cast db.lastLocalTimestamp)
    (h3 : ¬ RemoteNewer remoteItem db.lastRemoteTimestamp)
    (h4 : ¬ (remoteItem = none ∧ entry.mtime = u64cast db.lastLocalTimestamp))
    (h5 : ¬ (entry.mtime = u64cast db.lastLocalTimestamp
          ∧ RemoteSame remoteItem db.lastRemoteTimestamp)) :
    sync_local_item w entry remoteItem (some db) = [.fatalPanic] := by
  simp only [sync_local_item]
  rw [if_neg (fun h => h2 h.1), if_neg h2, if_neg h3, if_neg h4, if_neg h5]

/-- Helper: failure of the fall-through condition keeps the
local-rooted walk panic-free. -/
theorem sync_local_item_no_panic_of (w : WorldOracle) (entry : LocalEntry)
    (remoteItem : Option RemoteItem) (db : SyncItemRec)
    (h : entry.mtime > u64cast db.lastLocalTimestamp
        ∨ RemoteNewer remoteItem db.lastRemoteTimestamp
        ∨ (remoteItem = none ∧ entry.mtime = u64cast db.lastLocalTimestamp)
        ∨ (entry.mtime = u64cast db.lastLocalTimestamp
            ∧ RemoteSame remoteItem db.lastRemoteTimestamp)) :
    Effect.fatalPanic ∉ sync_local_item w entry remoteItem (some db) := by
  by_cases c2 : entry.mtime > u64cast db.lastLocalTimestamp
  · by_cases c3 : RemoteNewer remoteItem db.lastRemoteTimestamp
    · simp only [sync_local_item]
      rw [if_pos ⟨c2, c3⟩]
      rcases remoteItem with _ | r
      · simp
      · dsimp only
        split_ifs <;> simp
    · simp only [sync_local_item]
      rw [if_neg (fun hh => c3 hh.2), if_pos c2]
      rcases hpp : push_local_to_remote w entry remoteItem with ⟨effs, o⟩
      have hnp := fatalPanic_not_mem_push w entry remoteItem
      rw [hpp] at hnp
      rcases o with _ | fresh <;> simp_all
  · by_cases c3 : RemoteNewer remoteItem db.lastRemoteTimestamp
    · simp only [sync_local_item]
      rw [if_neg (fun hh => c2 hh.1), if_neg c2, if_pos c3]
      rcases remoteItem with _ | r
      · simp
      · rcases hpp : pull_remote_to_local w entry r with ⟨effs, ok⟩
        have hnp := fatalPanic_not_mem_pull w entry r
        rw [hpp] at hnp
        rcases ok <;> simp_all
    · by_cases c4 : remoteItem = none ∧ entry.mtime = u64cast db.lastLocalTimestamp
      · simp only [sync_local_item]
        rw [if_neg (fun hh => c2 hh.1), if_neg c2, if_neg c3, if_pos c4]
        split_ifs <;> simp
      · by_cases c5 : entry.mtime = u64cast db.lastLocalTimestamp
            ∧ RemoteSame remoteItem db.lastRemoteTimestamp
        · simp only [sync_local_item]
          rw [if_neg (fun hh => c2 hh.1), if_neg c2, if_neg c3, if_neg c4, if_pos c5]
          simp
        · rcases h with h | h | h | h
          · exact absurd h c2
          · exact absurd h c3
          · exact absurd h c4
          · exact absurd h c5

/-- Helper: the exact fall-through condition makes the remote-rooted
walk panic. -/
theorem sync_remote_item_panic_of (w : WorldOracle) (localEntry : Option LocalEntry)
    (item : RemoteItem) (db : SyncItemRec)
    (h2 : ¬ LocalNewer (localTsOf localEntry) db.lastLocalTimestamp)
    (h3 : ¬ item.modTime > db.lastRemoteTimestamp)
    (h4 : ¬ (localEntry = none ∧ item.modTime = db.lastRemoteTimestamp))
    (h5 : ¬ (LocalSame (localTsOf localEntry) db.lastLocalTimestamp
          ∧ item.modTime = db.lastRemoteTimestamp)) :
    sync_remote_item w localEntry item (some db) = [.fatalPanic] := by
  simp only [sync_remote_item]
  rw [if_neg (fun h => h2 h.1), if_neg h2, if_neg h3, if_neg h4, if_neg h5]

/-- Helper: failure of the fall-through condition keeps the
remote-rooted walk panic-free. -/
theorem sync_remote_item_no_panic_of (w : WorldOracle) (localEntry : Option LocalEntry)
    (item : RemoteItem) (db : SyncItemRec)
    (h : LocalNewer (localTsOf localEntry) db.lastLocalTimestamp
        ∨ item.modTime > db.lastRemoteTimestamp
        ∨ (localEntry = none ∧ item.modTime = db.lastRemoteTimestamp)
        ∨ (LocalSame (localTsOf localEntry) db.lastLocalTimestamp
            ∧ item.modTime = db.lastRemoteTimestamp)) :
    Effect.fatalPanic ∉ sync_remote_item w localEntry item (some db) := by
  by_cases c2 : LocalNewer (localTsOf localEntry) db.lastLocalTimestamp
  · by_cases c3 : item.modTime > db.lastRemoteTimestamp
    · simp only [sync_remote_item]
      rw [if_pos ⟨c2, c3⟩]
      split_ifs <;> simp
    · simp only [sync_remote_item]
      rw [if_neg (fun hh => c3 hh.2), if_pos c2]
      rcases hpp : remote_push_local_to_remote w (localIsDirOf localEntry) item
          with ⟨effs, o⟩
      have hnp := fatalPanic_not_mem_remote_push w (localIsDirOf localEntry) item
      rw [hpp] at hnp
      rcases o with _ | fresh <;> simp_all
  · by_cases c3 : item.modTime > db.lastRemoteTimestamp
    · simp only [sync_remote_item]
      rw [if_neg (fun hh => c2 hh.1), if_neg c2, if_pos c3]
      rcases hpp : remote_pull_remote_to_local w localEntry item with ⟨effs, ok⟩
      have hnp := fatalPanic_not_mem_remote_pull w localEntry item
      rw [hpp] at hnp
      rcases ok <;> simp_all
    · by_cases c4 : localEntry = none ∧ item.modTime = db.lastRemoteTimestamp
      · simp only [sync_remote_item]
        rw [if_neg (fun hh => c2 hh.1), if_neg c2, if_neg c3, if_pos c4]
        split_ifs <;> simp
      · by_cases c5 : LocalSame (localTsOf localEntry) db.lastLocalTimestamp
            ∧ item.modTime = db.lastRemoteTimestamp
        · simp only [sync_remote_item]
          rw [if_neg (fun hh => c2 hh.1), if_neg c2, if_neg c3, if_neg c4, if_pos c5]
          simp
        · rcases h with h | h | h | h
          · exact absurd h c2
          · exact absurd h c3
          · exact absurd h c4
          · exact absurd h c5

/-- C6 (amended): with a baseline present, the `unreachable!()` panic is
reached exactly when neither side is strictly newer than its stored
baseline value, the deletion-propagation guard fails, and the
both-unchanged guard fails — in each walk.  In particular a side
strictly older than its baseline is resolved as an ordinary push or
pull, not a panic, whenever the other side is strictly newer. -/
theorem panic_branch_characterization (w : WorldOracle) (entry : LocalEntry)
    (remoteItem : Option RemoteItem) (db : SyncItemRec) (localEntry : Option LocalEntry)
    (item : RemoteItem) :
    (Effect.fatalPanic ∈ sync_local_item w entry remoteItem (some db) ↔
      ¬ entry.mtime > u64cast db.lastLocalTimestamp
      ∧ ¬ RemoteNewer remoteItem db.lastRemoteTimestamp
      ∧ ¬ (remoteItem = none ∧ entry.mtime = u64cast db.lastLocalTimestamp)
      ∧ ¬ (entry.mtime = u64cast db.lastLocalTimestamp
            ∧ RemoteSame remoteItem db.lastRemoteTimestamp))
    ∧ (Effect.fatalPanic ∈ sync_remote_item w localEntry item (some db) ↔
      ¬ LocalNewer (localTsOf localEntry) db.lastLocalTimestamp
      ∧ ¬ item.modTime > db.lastRemoteTimestamp
      ∧ ¬ (localEntry = none ∧ item.modTime = db.lastRemoteTimestamp)
      ∧ ¬ (LocalSame (localTsOf localEntry) db.lastLocalTimestamp
            ∧ item.modTime = db.lastRemoteTimestamp)) := by
  constructor
  · constructor
    · intro hmem
      refine ⟨fun hg => ?_, fun hg => ?_, fun hg => ?_, fun hg => ?_⟩
      · exact sync_local_item_no_panic_of w entry remoteItem db (Or.inl hg) hmem
      · exact sync_local_item_no_panic_of w entry remoteItem db (Or.inr (Or.inl hg)) hmem
      · exact sync_local_item_no_panic_of w entry remoteItem db
          (Or.inr (Or.inr (Or.inl hg))) hmem
      · exact sync_local_item_no_panic_of w entry remoteItem db
          (Or.inr (Or.inr (Or.inr hg))) hmem
    · rintro ⟨h2, h3, h4, h5⟩
      rw [sync_local_item_panic_of w entry remoteItem db h2 h3 h4 h5]
      simp
  · constructor
    · intro hmem
      refine ⟨fun hg => ?_, fun hg => ?_, fun hg => ?_, fun hg => ?_⟩
      · exact sync_remote_item_no_panic_of w localEntry item db (Or.inl hg) hmem
      · exact sync_remote_item_no_panic_of w localEntry item db (Or.inr (Or.inl hg)) hmem
      · exact sync_remote_item_no_panic_of w localEntry item db
          (Or.inr (Or.inr (Or.inl hg))) hmem
      · exact sync_remote_item_no_panic_of w localEntry item db
          (Or.inr (Or.inr (Or.inr hg))) hmem
    · rintro ⟨h2, h3, h4, h5⟩
      rw [sync_remote_item_panic_of w localEntry item db h2 h3 h4 h5]
      simp

/-- C9 (amended): while a SyncDir's pending error brief is nonempty,
subsequent passes skip that entire SyncDir — no item of it is walked —
until the brief is cleared; within a pass running under a clear brief,
an erroring item (here a BothMoreCurrent conflict) does not stop the
remaining items of the same SyncDir from being reconciled. -/
theorem error_gate_granularity (w : WorldOracle) (errText : String)
    (items : List PassInput) (h : errText.length ≠ 0) :
    sync_dir_pass w errText items = []
    ∧ sync_dir_pass allOk ""
        [⟨some ⟨false, 20⟩, some ⟨false, 30⟩, some ⟨10, 15⟩, false, false⟩,
          ⟨some ⟨false, 20⟩, some ⟨false, 10⟩, some ⟨10, 10⟩, false, false⟩]
      = [.errBothMoreCurrent, .remotePurge, .transferPush, .storeUpdate 20 42] := by
  refine ⟨?_, by decide⟩
  unfold sync_dir_pass
  rw [if_pos h]

/-- C9 amended witness: a pending "1 error found." brief empties the
pass over a SyncDir containing an otherwise healthy item. -/
theorem error_gate_granularity_witness :
    sync_dir_pass allOk "1 error found. "
      [⟨some ⟨false, 20⟩, some ⟨false, 10⟩, some ⟨10, 10⟩, false, false⟩] = [] :=
  (error_gate_granularity allOk "1 error found. "
    [⟨some ⟨false, 20⟩, some ⟨false, 10⟩, some ⟨10, 10⟩, false, false⟩] (by decide)).1

end Celeste
